import Mathlib

/-!
Shallow embedding of the Pioneer + OpenAI chat backend (src/backend/main.py).

The backend is sequential HTTP glue: a /register endpoint and a /chat
endpoint orchestrating four collaborator calls (profile summary fetch,
context-chunk fetch, chat completion, conversation ingest).  Network
effects are modelled by passing each outbound call's outcome in
explicitly (an `Env` record per request); the endpoint bodies are then
pure functions of the request and those outcomes.  The list of
collaborator calls each request performs is returned as a trace so that
claims about which calls happen (and with which payloads) are provable.

Python-specific behaviours are modelled faithfully:
  * truthiness tests (`if not request.user_id`, `if user_summary`,
    `if chunks`, `if name`) treat `None` and the empty string / empty
    list as false;
  * `dict.get(key, default)` returns the stored value even when that
    value is `None`; the default applies only when the key is absent.
    A dict field that may be absent is therefore `Option (Option String)`:
    `none` = key absent, `some v` = key present with value `v`
    (`v = none` being Python `None`);
  * pydantic `model_dump()` always emits every field, so a dumped
    message carries the timestamp key even when its value is `None`;
  * `fastapi.HTTPException` derives from `Exception`, so a blanket
    `except Exception` inside an endpoint catches it and the endpoint's
    own re-raise (status 500) is what reaches the caller.
-/

/-- Python truthiness of an optional string: `None` and `""` are falsy. -/
def strOptTruthy : Option String → Bool
  | none => false
  | some s => s ≠ ""

/-- Outcome of one outbound HTTP call: a response with status code,
parsed JSON body and raw text, or a transport-level exception. -/
inductive HttpOutcome (β : Type) where
  | resp : Nat → β → String → HttpOutcome β
  | exn : String → HttpOutcome β
deriving DecidableEq, Repr

/-- An HTTP error as surfaced by FastAPI: status code and detail string. -/
structure HttpError where
  status : Nat
  detail : String
deriving DecidableEq, Repr

/-- Python `dict.get("timestamp", default)` on a field that may be
absent (`none`), or present with value `some v` (possibly Python
`None`, i.e. `v = none`).  The default applies only when the key is
absent. -/
def dictGetTimestamp : Option (Option String) → String → Option String
  | none, dflt => some dflt
  | some v, _ => v

/-- A pydantic `Message`: role, content, optional ISO-8601 timestamp. -/
structure Message where
  role : String
  content : String
  timestamp : Option String
deriving DecidableEq, Repr

/-- A conversation entry as a Python dict built in `chat` (either
`msg.model_dump()` or a literal dict).  The timestamp field records
key presence: `none` = key absent, `some v` = key present with `v`. -/
structure MsgDict where
  role : String
  content : String
  timestamp : Option (Option String)
deriving DecidableEq, Repr

/-- `msg.model_dump()`: every field is emitted, so the timestamp key is
present even when its value is `None`. -/
def modelDump (m : Message) : MsgDict :=
  ⟨m.role, m.content, some m.timestamp⟩

/-- A `{role, content}` pair, as sent to the chunks endpoint and to the
completion API. -/
structure RoleContent where
  role : String
  content : String
deriving DecidableEq, Repr

/-- A context chunk returned by the chunks endpoint; `chat` reads
`chunk["text"]`. -/
structure Chunk where
  text : String
deriving DecidableEq, Repr

/-- Parsed body of the summary endpoint response: `data.get("summary")`. -/
structure SummaryBody where
  summary : Option String
deriving DecidableEq, Repr

/-- Parsed body of the chunks endpoint response: `data.get("chunks", [])`. -/
structure ChunksBody where
  chunks : Option (List Chunk)
deriving DecidableEq, Repr

/-- Parsed body of the upstream register response: `result.get("user_id")`. -/
structure RegisterBody where
  user_id : Option String
deriving DecidableEq, Repr

/-- `get_user_summary`: on status 200 return `data.get("summary")`;
on any other status or a transport exception, log and return `None`. -/
def get_user_summary (outcome : HttpOutcome SummaryBody) : Option String :=
  match outcome with
  | .resp code body _ => if code = 200 then body.summary else none
  | .exn _ => none

/-- `get_relevant_chunks` result handling: on status 200 return
`data.get("chunks", [])`; on any other status or a transport
exception, log and return `[]`. -/
def get_relevant_chunks (outcome : HttpOutcome ChunksBody) : List Chunk :=
  match outcome with
  | .resp code body _ => if code = 200 then body.chunks.getD [] else []
  | .exn _ => []

/-- History formatting inside `get_relevant_chunks`: each conversation
dict is reduced to its role and content. -/
def chunksHistory (conversation : List MsgDict) : List RoleContent :=
  conversation.map fun m => ⟨m.role, m.content⟩

/-- A message as formatted for the ingest payload: role, content and a
timestamp value (Python `None` is `none`). -/
structure FormattedMsg where
  role : String
  content : String
  timestamp : Option String
deriving DecidableEq, Repr

/-- One formatted ingest message:
`{"role": msg["role"], "content": msg["content"],
  "timestamp": msg.get("timestamp", now)}`. -/
def formatIngestMsg (now : String) (m : MsgDict) : FormattedMsg :=
  ⟨m.role, m.content, dictGetTimestamp m.timestamp now⟩

/-- The JSON payload posted to the ingest endpoint. -/
structure IngestPayload where
  user_id : String
  source : String
  message_history : List FormattedMsg
  dedupe : Bool
deriving DecidableEq, Repr

/-- `ingest_conversation`: builds the ingest payload and, from the
call's outcome, the log line it prints.  The whole body sits in a
`try/except` whose handler only prints, and a non-200 status is only
printed, so this function never raises and returns no error. -/
def ingest_conversation (user_id : String) (messages : List MsgDict)
    (now : String) (outcome : HttpOutcome Unit) : IngestPayload × String :=
  let payload : IngestPayload :=
    ⟨user_id, "chat_app", messages.map (formatIngestMsg now), true⟩
  let log :=
    match outcome with
    | .resp code _ text =>
        if code ≠ 200 then
          "[ERROR] Failed to ingest conversation. Status: " ++ toString code
            ++ ", Response: " ++ text
        else "[SUCCESS] Conversation ingested successfully"
    | .exn m => "[ERROR] Exception ingesting conversation: " ++ m
  (payload, log)

/-- The `traits` dict built by `register_pioneer_user`: name and
timezone are added only when truthy. -/
def registerTraits (name timezone : Option String) : List (String × String) :=
  (match name with
   | some n => if n ≠ "" then [("name", n)] else []
   | none => []) ++
  (match timezone with
   | some t => if t ≠ "" then [("timezone", t)] else []
   | none => [])

/-- The JSON payload posted to the upstream /register endpoint. -/
structure RegisterPayload where
  email : String
  purpose : String
  traits : List (String × String)
deriving DecidableEq, Repr

/-- Payload construction in `register_pioneer_user`. -/
def registerPayload (email : String) (name timezone : Option String) : RegisterPayload :=
  ⟨email,
   "A personalized AI chat assistant that learns from conversations and adapts to user preferences",
   registerTraits name timezone⟩

/-- Exceptions that can escape `register_pioneer_user`: the explicit
`HTTPException` raised on a non-200 upstream status, or a transport
exception from the HTTP client (there is no `try/except` inside). -/
inductive RegisterExn where
  | http : HttpError → RegisterExn
  | transport : String → RegisterExn
deriving DecidableEq, Repr

/-- Python `str(e)`: starlette `HTTPException.__str__` is
`f"{status_code}: {detail}"`; for other exceptions, the message. -/
def RegisterExn.toStr : RegisterExn → String
  | .http e => toString e.status ++ ": " ++ e.detail
  | .transport m => m

/-- `register_pioneer_user`: on a non-200 upstream status raise
`HTTPException(status_code=response.status_code,
detail="Failed to register user with Pioneer: " + response.text)`;
on 200 return the parsed body. -/
def register_pioneer_user (upstream : HttpOutcome RegisterBody) :
    Except RegisterExn RegisterBody :=
  match upstream with
  | .exn m => .error (.transport m)
  | .resp code body text =>
      if code ≠ 200 then
        .error (.http ⟨code, "Failed to register user with Pioneer: " ++ text⟩)
      else .ok body

/-- The request body of the backend /register endpoint. -/
structure RegisterRequest where
  email : String
  name : Option String
  timezone : Option String
deriving DecidableEq, Repr

/-- The success body returned by the backend /register endpoint. -/
structure RegisterResult where
  success : Bool
  user_id : Option String
  message : String
deriving DecidableEq, Repr

/-- The `/register` endpoint: calls `register_pioneer_user` inside
`try`, returning `{"success": True, "user_id": result.get("user_id"),
"message": ...}` on success; `except Exception as e` catches any
exception — including the `HTTPException` carrying the upstream
status — and re-raises `HTTPException(status_code=500, detail=str(e))`. -/
def register_user (req : RegisterRequest) (upstream : HttpOutcome RegisterBody) :
    Except HttpError RegisterResult :=
  match register_pioneer_user upstream with
  | .ok result =>
      .ok ⟨true, result.user_id,
           "User " ++ req.email ++ " registered successfully"⟩
  | .error e => .error ⟨500, e.toStr⟩

/-- The request body of the /chat endpoint (`ChatRequest` in the
source); `user_email` is for debugging/logging only. -/
structure ChatRequest where
  message : String
  conversation_history : List Message
  user_id : Option String
  user_email : Option String
deriving DecidableEq, Repr

/-- The response body of the /chat endpoint (`ChatResponse`). -/
structure ChatResponse where
  response : String
  relevant_context : Option (List Chunk)
  user_profile : Option String
deriving DecidableEq, Repr

/-- The JSON body posted to the chunks endpoint. -/
structure ChunksRequest where
  user_id : String
  history : List RoleContent
  k : Nat
  similarity_threshold : ℚ
deriving DecidableEq, Repr

/-- The payload of `openai_client.chat.completions.create`. -/
structure CompletionRequest where
  model : String
  messages : List RoleContent
  temperature : ℚ
  max_tokens : Nat
  tools : List String
deriving DecidableEq, Repr

/-- One outbound collaborator call made while serving a chat request,
with the parameters it was issued with. -/
inductive CollabCall where
  | summaryCall : String → Nat → CollabCall
  | chunksCall : ChunksRequest → CollabCall
  | completionCall : CompletionRequest → CollabCall
  | ingestCall : IngestPayload → CollabCall
deriving DecidableEq, Repr

deriving instance DecidableEq for Except

/-- The behaviour of the external world for one chat request: the
outcome of each outbound call, and the `datetime.utcnow().isoformat()`
strings at the three points where timestamps are minted (the code
appends `"Z"` to each). -/
structure Env where
  summaryResult : HttpOutcome SummaryBody
  chunksResult : HttpOutcome ChunksBody
  completionResult : Except String String
  ingestResult : HttpOutcome Unit
  nowUser : String
  nowAssistant : String
  nowIngest : String
deriving DecidableEq, Repr

/-- Replaces the ingest-call outcome of an environment. -/
def setIngest (e : Env) (i : HttpOutcome Unit) : Env :=
  ⟨e.summaryResult, e.chunksResult, e.completionResult, i,
   e.nowUser, e.nowAssistant, e.nowIngest⟩

/-- Exceptions that can arise inside the /chat endpoint's `try` block:
the explicit `HTTPException(400)` for a missing user_id, or an
exception from the completion call. -/
inductive ChatExn where
  | http : HttpError → ChatExn
  | completion : String → ChatExn
deriving DecidableEq, Repr

/-- Python `str(e)` for the chat-path exceptions (starlette
`HTTPException.__str__` is `f"{status_code}: {detail}"`). -/
def ChatExn.toStr : ChatExn → String
  | .http e => toString e.status ++ ": " ++ e.detail
  | .completion m => m

/-- What serving one chat request produces: the HTTP result, the trace
of collaborator calls actually issued, and the log line printed by the
ingest step (none when ingestion was never attempted). -/
structure ChatOutcome where
  result : Except HttpError ChatResponse
  calls : List CollabCall
  ingestLog : Option String
deriving DecidableEq, Repr

/-- The base system prompt. -/
def basePrompt : String := "You are a helpful AI assistant."

/-- The conversation dicts built in `chat` before the chunks fetch:
the dumped history plus the current user turn, timestamped with
`datetime.utcnow().isoformat() + "Z"`. -/
def conversationOf (message : String) (history : List Message) (env : Env) : List MsgDict :=
  history.map modelDump ++ [⟨"user", message, some (some (env.nowUser ++ "Z"))⟩]

/-- System-prompt assembly: `system_prompt = "You are a helpful AI
assistant."`, and `if user_summary:` (truthiness — `None` and `""` are
falsy) the profile block is appended. -/
def systemPromptOf (user_summary : Option String) : String :=
  if strOptTruthy user_summary then
    basePrompt ++ "\n\nUser Profile:\n" ++ user_summary.getD "" ++
      "\n\nKeep the user\x27s preferences and context in mind when responding."
  else basePrompt

/-- User-message assembly: the original message, and `if chunks:`
(truthiness — the empty list is falsy) the bracketed context block is
appended, each chunk rendered as a `"- "`-prefixed line joined by
newlines. -/
def userMessageOf (message : String) (chunks : List Chunk) : String :=
  if chunks.isEmpty then message
  else message ++ "\n\n[Relevant context from past conversations:\n" ++
    String.intercalate "\n" (chunks.map fun c => "- " ++ c.text) ++ "]"

/-- The completion message list: the system message, then each history
message reduced to role and content, then the augmented user message. -/
def completionMessagesOf (system_prompt : String) (history : List Message)
    (user_message : String) : List RoleContent :=
  ⟨"system", system_prompt⟩ ::
    (history.map fun m => ⟨m.role, m.content⟩) ++ [⟨"user", user_message⟩]

/-- The payload of the `openai_client.chat.completions.create` call:
model "gpt-4.1", the assembled messages, temperature 0.7, max_tokens
1000, and the (unused) query tool attached. -/
def completionRequestOf (message : String) (history : List Message) (env : Env) :
    CompletionRequest :=
  ⟨"gpt-4.1",
   completionMessagesOf (systemPromptOf (get_user_summary env.summaryResult)) history
     (userMessageOf message (get_relevant_chunks env.chunksResult)),
   (7 : ℚ)/10, 1000, ["query_user_knowledge"]⟩

/-- The collaborator calls issued before the completion outcome is
known: the summary fetch (max_chars 1000), the chunks fetch (k = 5,
similarity_threshold 0.25, history reduced to role/content), and the
completion call. -/
def baseCallsOf (message : String) (history : List Message) (uid : String) (env : Env) :
    List CollabCall :=
  [.summaryCall uid 1000,
   .chunksCall ⟨uid, chunksHistory (conversationOf message history env), 5, (1 : ℚ)/4⟩,
   .completionCall (completionRequestOf message history env)]

/-- The /chat flow after the user_id check, in source order: fetch the
summary, build the conversation dicts, fetch chunks, assemble the
prompt, call the completion API (its exception propagates and aborts
the rest), append the timestamped assistant turn, ingest, and return
the `ChatResponse` (`relevant_context` is `chunks if chunks else None`). -/
def chatMain (message : String) (history : List Message) (uid : String) (env : Env) :
    Except ChatExn ChatResponse × List CollabCall × Option String :=
  match env.completionResult with
  | .error m => (.error (.completion m), baseCallsOf message history uid env, none)
  | .ok assistant_response =>
      let conversation := conversationOf message history env ++
        [⟨"assistant", assistant_response, some (some (env.nowAssistant ++ "Z"))⟩]
      let ingested :=
        ingest_conversation uid conversation (env.nowIngest ++ "Z") env.ingestResult
      (.ok ⟨assistant_response,
            if (get_relevant_chunks env.chunksResult).isEmpty then none
            else some (get_relevant_chunks env.chunksResult),
            get_user_summary env.summaryResult⟩,
       baseCallsOf message history uid env ++ [.ingestCall ingested.1],
       some ingested.2)

/-- The body of the /chat endpoint's `try` block: `if not
request.user_id:` raise `HTTPException(400, ...)`; otherwise run the
orchestration flow. -/
def chatBody (req : ChatRequest) (env : Env) :
    Except ChatExn ChatResponse × List CollabCall × Option String :=
  if !strOptTruthy req.user_id then
    (.error (.http ⟨400, "user_id is required. Please register on the frontend first."⟩),
     [], none)
  else chatMain req.message req.conversation_history (req.user_id.getD "") env

/-- The /chat endpoint: runs the `try` body; `except Exception as e`
catches every exception — including the endpoint's own
`HTTPException(400)` — and re-raises
`HTTPException(status_code=500, detail="Error processing chat: " + str(e))`. -/
def chat (req : ChatRequest) (env : Env) : ChatOutcome :=
  match chatBody req env with
  | (.error e, calls, log) =>
      ⟨.error ⟨500, "Error processing chat: " ++ e.toStr⟩, calls, log⟩
  | (.ok r, calls, log) => ⟨.ok r, calls, log⟩

/-- The completion request issued while serving a request, if any. -/
def sentCompletion (o : ChatOutcome) : Option CompletionRequest :=
  o.calls.findSome? fun c =>
    match c with
    | .completionCall r => some r
    | _ => none

/-- The ingest payload submitted while serving a request, if any. -/
def sentIngest (o : ChatOutcome) : Option IngestPayload :=
  o.calls.findSome? fun c =>
    match c with
    | .ingestCall p => some p
    | _ => none

/-- The argument pair of the ingest call made for a successful chat:
the conversation including the appended assistant turn. -/
def ingestedOf (message : String) (history : List Message) (uid a : String) (env : Env) :
    IngestPayload × String :=
  ingest_conversation uid
    (conversationOf message history env ++
      [⟨"assistant", a, some (some (env.nowAssistant ++ "Z"))⟩])
    (env.nowIngest ++ "Z") env.ingestResult

/-- A collaborator call failed: non-200 status or transport exception. -/
def outcomeFails {β : Type} : HttpOutcome β → Bool
  | .resp code _ _ => code ≠ 200
  | .exn _ => true

/-- Fixture: a chat request whose single history message has no timestamp. -/
def reqHi : ChatRequest := ⟨"How are you?", [⟨"user", "Hi", none⟩], some "u1", none⟩

/-- Fixture: every collaborator call succeeds. -/
def envAllOk : Env :=
  ⟨.resp 200 ⟨some "Likes historical fiction"⟩ "",
   .resp 200 ⟨some [⟨"User enjoys hiking"⟩, ⟨"User lives in Berlin"⟩]⟩ "",
   .ok "Doing well!", .resp 200 () "",
   "2024-01-01T00:00:00", "2024-01-01T00:00:01", "2024-01-01T00:00:02"⟩

/-- Fixture: the summary fetch times out and the chunks fetch gets a 500. -/
def envFetchFail : Env :=
  ⟨.exn "timeout", .resp 500 ⟨none⟩ "server error",
   .ok "Doing well!", .resp 200 () "", "T1", "T2", "T3"⟩

/-- Fixture: the completion call raises. -/
def envCompletionFail : Env :=
  ⟨.resp 200 ⟨some "Likes historical fiction"⟩ "", .resp 200 ⟨some []⟩ "",
   .error "API connection error", .resp 200 () "", "T1", "T2", "T3"⟩

/-- Fixture: the ingest call gets a 500. -/
def envIngestFail : Env :=
  ⟨.resp 200 ⟨some "Likes historical fiction"⟩ "",
   .resp 200 ⟨some [⟨"User enjoys hiking"⟩]⟩ "",
   .ok "Doing well!", .resp 500 () "ingest down", "T1", "T2", "T3"⟩

/-- Fixture: the summary endpoint returns 200 with an empty summary. -/
def envEmptySummary : Env :=
  ⟨.resp 200 ⟨some ""⟩ "", .resp 200 ⟨some []⟩ "",
   .ok "ok", .resp 200 () "", "T1", "T2", "T3"⟩

theorem strOptTruthy_some (s : String) (h : s ≠ "") : strOptTruthy (some s) = true := by
  simp [strOptTruthy, h]

theorem chatBody_some (m : String) (hist : List Message) (uid : String) (em : Option String)
    (env : Env) (h : uid ≠ "") :
    chatBody ⟨m, hist, some uid, em⟩ env = chatMain m hist uid env := by
  simp [chatBody, strOptTruthy, h]

theorem chat_ok (m : String) (hist : List Message) (uid : String) (em : Option String)
    (env : Env) (a : String) (h : uid ≠ "") (hc : env.completionResult = .ok a) :
    chat ⟨m, hist, some uid, em⟩ env =
      ⟨.ok ⟨a,
            if (get_relevant_chunks env.chunksResult).isEmpty then none
            else some (get_relevant_chunks env.chunksResult),
            get_user_summary env.summaryResult⟩,
       baseCallsOf m hist uid env ++ [.ingestCall (ingestedOf m hist uid a env).1],
       some (ingestedOf m hist uid a env).2⟩ := by
  simp [chat, chatBody_some m hist uid em env h, chatMain, hc, ingestedOf]

theorem chat_err (m : String) (hist : List Message) (uid : String) (em : Option String)
    (env : Env) (msg : String) (h : uid ≠ "") (hc : env.completionResult = .error msg) :
    chat ⟨m, hist, some uid, em⟩ env =
      ⟨.error ⟨500, "Error processing chat: " ++ msg⟩,
       baseCallsOf m hist uid env, none⟩ := by
  simp [chat, chatBody_some m hist uid em env h, chatMain, hc, ChatExn.toStr]

theorem sentCompletion_chat (m : String) (hist : List Message) (uid : String)
    (em : Option String) (env : Env) (h : uid ≠ "") :
    sentCompletion (chat ⟨m, hist, some uid, em⟩ env) =
      some (completionRequestOf m hist env) := by
  cases hc : env.completionResult with
  | error msg =>
      rw [chat_err m hist uid em env msg h hc]
      simp [sentCompletion, baseCallsOf]
  | ok a =>
      rw [chat_ok m hist uid em env a h hc]
      simp [sentCompletion, baseCallsOf]

theorem sentIngest_chat_err (m : String) (hist : List Message) (uid : String)
    (em : Option String) (env : Env) (msg : String) (h : uid ≠ "")
    (hc : env.completionResult = .error msg) :
    sentIngest (chat ⟨m, hist, some uid, em⟩ env) = none := by
  rw [chat_err m hist uid em env msg h hc]
  simp [sentIngest, baseCallsOf]

theorem sentIngest_chat_ok (m : String) (hist : List Message) (uid : String)
    (em : Option String) (env : Env) (a : String) (h : uid ≠ "")
    (hc : env.completionResult = .ok a) :
    sentIngest (chat ⟨m, hist, some uid, em⟩ env) =
      some (ingestedOf m hist uid a env).1 := by
  rw [chat_ok m hist uid em env a h hc]
  simp [sentIngest, baseCallsOf]

theorem get_user_summary_of_fails (o : HttpOutcome SummaryBody)
    (h : outcomeFails o = true) : get_user_summary o = none := by
  cases o with
  | resp code body text =>
      simp [outcomeFails] at h
      simp [get_user_summary, h]
  | exn m => rfl

theorem get_relevant_chunks_of_fails (o : HttpOutcome ChunksBody)
    (h : outcomeFails o = true) : get_relevant_chunks o = [] := by
  cases o with
  | resp code body text =>
      simp [outcomeFails] at h
      simp [get_relevant_chunks, h]
  | exn m => rfl

theorem map_formatIngest_modelDump (now : String) (l : List Message) :
    (l.map modelDump).map (formatIngestMsg now) =
      l.map fun x => ⟨x.role, x.content, x.timestamp⟩ := by
  induction l with
  | nil => rfl
  | cons x xs ih => simp_all [formatIngestMsg, modelDump, dictGetTimestamp]

theorem ingestedOf_payload (m : String) (hist : List Message) (uid a : String) (env : Env) :
    (ingestedOf m hist uid a env).1 =
      ⟨uid, "chat_app",
       (hist.map fun x => ⟨x.role, x.content, x.timestamp⟩) ++
         [⟨"user", m, some (env.nowUser ++ "Z")⟩,
          ⟨"assistant", a, some (env.nowAssistant ++ "Z")⟩],
       true⟩ := by
  simp [ingestedOf, ingest_conversation, conversationOf, map_formatIngest_modelDump,
    formatIngestMsg, dictGetTimestamp, modelDump]

theorem append_Z_ne_empty (s : String) : s ++ "Z" ≠ "" := by
  intro h
  have hlen := congrArg String.length h
  simp [String.length_append] at hlen
  exact absurd hlen.2 (by decide)

/-- C1: a chat request with `user_id` absent is rejected before any
collaborator call — the trace of outbound calls is empty and no ingest
log is produced — but, contrary to the claim, the surfaced HTTP status
is 500 rather than 400: the endpoint raises `HTTPException(400, ...)`
inside its own `try`, the blanket `except Exception` catches it, and
re-raises status 500 with the stringified 400 inside the detail. -/
theorem chat_missing_user_id_500_and_no_calls
    (message : String) (history : List Message) (email : Option String) (env : Env) :
    chat ⟨message, history, none, email⟩ env =
      ⟨.error ⟨500,
        "Error processing chat: 400: user_id is required. Please register on the frontend first."⟩,
       [], none⟩ := rfl

/-- C2: when the upstream register call returns a non-success status
(here 409 with body `text`), the error surfaced by /register is not the
upstream status/body passed through unchanged: `register_pioneer_user`
raises the pass-through `HTTPException(409, ...)`, but the endpoint's
blanket `except Exception` catches it and re-raises
`HTTPException(500, str(e))`, so the caller sees status 500 with a
stringified, prefixed detail. -/
theorem register_upstream_error_wrapped_as_500
    (req : RegisterRequest) (body : RegisterBody) (text : String) :
    register_user req (.resp 409 body text) =
      .error ⟨500, "409: Failed to register user with Pioneer: " ++ text⟩ := by
  have h : register_user req (.resp 409 body text) =
      .error ⟨500, (toString (409 : Nat) ++ ": ") ++
        ("Failed to register user with Pioneer: " ++ text)⟩ := rfl
  have h2 : (toString (409 : Nat) ++ ": ") ++ "Failed to register user with Pioneer: " =
      "409: Failed to register user with Pioneer: " := by decide
  rw [h, ← h2]
  simp [String.append_assoc]
  congr 1

/-- C9: `user_email` is diagnostic only — two chat requests identical
except for `user_email`, run against the same collaborator outcomes,
produce identical results in every observable: the same HTTP result
(hence the same `ChatResponse`), the same collaborator calls (hence the
same completion payload), and the same ingest log. -/
theorem user_email_noninterference (message : String) (history : List Message)
    (uid e e' : Option String) (env : Env) :
    chat ⟨message, history, uid, e⟩ env = chat ⟨message, history, uid, e'⟩ env := rfl

/-- C10: a /register call whose upstream response is status 200 with a
body lacking `user_id` still returns success: true, with user_id null
(`result.get("user_id")` is `None`). -/
theorem register_success_null_user_id (req : RegisterRequest) (text : String) :
    register_user req (.resp 200 ⟨none⟩ text) =
      .ok ⟨true, none, "User " ++ req.email ++ " registered successfully"⟩ := rfl

/-- C3 counterexample: a history message lacking a timestamp is NOT
given a current-time timestamp before submission.  The request's single
history message has no timestamp; `model_dump()` serializes it with an
explicit `None` timestamp, so `msg.get("timestamp", now)` returns
`None` and the message is submitted to ingest with a null timestamp
(first entry below), not a current-time one. -/
theorem ingest_null_timestamp_counterexample :
    sentIngest (chat reqHi envFetchFail) =
      some ⟨"u1", "chat_app",
        [⟨"user", "Hi", none⟩,
         ⟨"user", "How are you?", some "T1Z"⟩,
         ⟨"assistant", "Doing well!", some "T2Z"⟩], true⟩ := by decide

/-- C3 (amended): history messages are submitted to ingest with their
original timestamps unchanged (null stays null, because `model_dump()`
always emits the timestamp key and `dict.get`'s current-time default
applies only to an absent key), while the appended current user turn
and the just-produced assistant turn always carry non-empty
current-time timestamps. -/
theorem ingest_timestamps (req : ChatRequest) (env : Env) (uid a : String)
    (hu : req.user_id = some uid) (hne : uid ≠ "")
    (hc : env.completionResult = .ok a) :
    sentIngest (chat req env) =
      some ⟨uid, "chat_app",
        (req.conversation_history.map fun x => ⟨x.role, x.content, x.timestamp⟩) ++
          [⟨"user", req.message, some (env.nowUser ++ "Z")⟩,
           ⟨"assistant", a, some (env.nowAssistant ++ "Z")⟩],
        true⟩ ∧
    env.nowAssistant ++ "Z" ≠ "" := by
  rcases req with ⟨m, hist, u, em⟩
  replace hu : u = some uid := hu
  subst hu
  rw [sentIngest_chat_ok m hist uid em env a hne hc, ingestedOf_payload]
  exact ⟨rfl, append_Z_ne_empty _⟩

/-- C3 witness: the amended theorem applied to a concrete request whose
history message lacks a timestamp, with all collaborator calls
succeeding. -/
theorem ingest_timestamps_witness :
    sentIngest (chat reqHi envAllOk) =
      some ⟨"u1", "chat_app",
        ([⟨"user", "Hi", none⟩] : List Message).map
            (fun x => ⟨x.role, x.content, x.timestamp⟩) ++
          [⟨"user", "How are you?", some (envAllOk.nowUser ++ "Z")⟩,
           ⟨"assistant", "Doing well!", some (envAllOk.nowAssistant ++ "Z")⟩],
        true⟩ ∧
    envAllOk.nowAssistant ++ "Z" ≠ "" :=
  ingest_timestamps reqHi envAllOk "u1" "Doing well!" rfl (by decide) rfl

/-- C4: with a (truthy) user_id and a successful completion call, a
failed profile fetch (non-200 or exception) still lets the flow
complete with `user_profile` absent, and a failed chunk fetch still
lets the flow complete with no relevant context in the response —
neither failure aborts the request. -/
theorem fetch_failure_degrades_gracefully (req : ChatRequest) (env : Env)
    (uid a : String) (hu : req.user_id = some uid) (hne : uid ≠ "")
    (hc : env.completionResult = .ok a) :
    (outcomeFails env.summaryResult = true →
      ∃ r, (chat req env).result = .ok r ∧ r.user_profile = none) ∧
    (outcomeFails env.chunksResult = true →
      ∃ r, (chat req env).result = .ok r ∧ r.relevant_context = none) := by
  rcases req with ⟨m, hist, u, em⟩
  replace hu : u = some uid := hu
  subst hu
  rw [chat_ok m hist uid em env a hne hc]
  constructor
  · intro hs
    exact ⟨_, rfl, by simp [get_user_summary_of_fails env.summaryResult hs]⟩
  · intro hchunk
    have hnil := get_relevant_chunks_of_fails env.chunksResult hchunk
    exact ⟨_, rfl, by simp [hnil]⟩

/-- C4 witness: the theorem applied to a request whose profile fetch
raises a timeout and whose chunk fetch returns a 500. -/
theorem fetch_failure_degrades_gracefully_witness :
    outcomeFails envFetchFail.summaryResult = true ∧
    outcomeFails envFetchFail.chunksResult = true ∧
    (∃ r, (chat reqHi envFetchFail).result = .ok r ∧ r.user_profile = none) ∧
    (∃ r, (chat reqHi envFetchFail).result = .ok r ∧ r.relevant_context = none) := by
  have h := fetch_failure_degrades_gracefully reqHi envFetchFail "u1" "Doing well!"
    rfl (by decide) rfl
  exact ⟨by decide, by decide, h.1 (by decide), h.2 (by decide)⟩

/-- C5: when the completion call fails, the /chat operation returns an
error to the caller (a 500 wrapping the exception text) and the ingest
call is never attempted: no ingest payload appears in the call trace
and no ingest log line is produced. -/
theorem completion_failure_errors_and_skips_ingest (req : ChatRequest) (env : Env)
    (uid msg : String) (hu : req.user_id = some uid) (hne : uid ≠ "")
    (hc : env.completionResult = .error msg) :
    (chat req env).result = .error ⟨500, "Error processing chat: " ++ msg⟩ ∧
    sentIngest (chat req env) = none ∧
    (chat req env).ingestLog = none := by
  rcases req with ⟨m, hist, u, em⟩
  replace hu : u = some uid := hu
  subst hu
  refine ⟨?_, sentIngest_chat_err m hist uid em env msg hne hc, ?_⟩
  · rw [chat_err m hist uid em env msg hne hc]
  · rw [chat_err m hist uid em env msg hne hc]

/-- C5 witness: the theorem applied to a concrete request whose
completion call raises. -/
theorem completion_failure_errors_and_skips_ingest_witness :
    (chat reqHi envCompletionFail).result =
      .error ⟨500, "Error processing chat: " ++ "API connection error"⟩ ∧
    sentIngest (chat reqHi envCompletionFail) = none ∧
    (chat reqHi envCompletionFail).ingestLog = none :=
  completion_failure_errors_and_skips_ingest reqHi envCompletionFail "u1"
    "API connection error" rfl (by decide) rfl

/-- C6: when the ingest call fails (non-200 or exception), the failure
is logged only: the HTTP result equals the already-computed
`ChatResponse` (response text, relevant context, user profile), it is
identical to what any other ingest outcome would have produced, and an
ingest log line exists. -/
theorem ingest_failure_logged_only (req : ChatRequest) (env : Env)
    (uid a : String) (ing : HttpOutcome Unit)
    (hu : req.user_id = some uid) (hne : uid ≠ "")
    (hc : env.completionResult = .ok a)
    (_hf : outcomeFails env.ingestResult = true) :
    (chat req env).result =
      .ok ⟨a,
           if (get_relevant_chunks env.chunksResult).isEmpty then none
           else some (get_relevant_chunks env.chunksResult),
           get_user_summary env.summaryResult⟩ ∧
    (chat req env).result = (chat req (setIngest env ing)).result ∧
    ((chat req env).ingestLog).isSome = true := by
  rcases req with ⟨m, hist, u, em⟩
  replace hu : u = some uid := hu
  subst hu
  have hc2 : (setIngest env ing).completionResult = .ok a := hc
  rw [chat_ok m hist uid em env a hne hc, chat_ok m hist uid em (setIngest env ing) a hne hc2]
  exact ⟨rfl, rfl, rfl⟩

/-- C6 witness: the theorem applied to a concrete request whose ingest
call returns a 500. -/
theorem ingest_failure_logged_only_witness :
    outcomeFails envIngestFail.ingestResult = true ∧
    ((chat reqHi envIngestFail).result =
        .ok ⟨"Doing well!",
             if (get_relevant_chunks envIngestFail.chunksResult).isEmpty then none
             else some (get_relevant_chunks envIngestFail.chunksResult),
             get_user_summary envIngestFail.summaryResult⟩ ∧
      (chat reqHi envIngestFail).result =
        (chat reqHi (setIngest envIngestFail (.resp 200 () ""))).result ∧
      ((chat reqHi envIngestFail).ingestLog).isSome = true) :=
  ⟨by decide,
   ingest_failure_logged_only reqHi envIngestFail "u1" "Doing well!" (.resp 200 () "")
     rfl (by decide) rfl (by decide)⟩

/-- C7 counterexample: with the summary endpoint returning 200 and an
empty-string summary, the summary is present (`data.get("summary")` is
`""`, and the response's `user_profile` would carry it), yet the system
message sent to the completion API is the bare base instruction — the
profile block is appended only when the summary is truthy, i.e.
non-empty, because `if user_summary:` treats `""` as false.  So
"appended exactly when a summary is present" fails at this input. -/
theorem prompt_empty_summary_counterexample :
    get_user_summary envEmptySummary.summaryResult = some "" ∧
    sentCompletion (chat ⟨"Hi", [], some "u1", none⟩ envEmptySummary) =
      some ⟨"gpt-4.1", [⟨"system", basePrompt⟩, ⟨"user", "Hi"⟩], (7 : ℚ)/10, 1000,
            ["query_user_knowledge"]⟩ ∧
    basePrompt ≠
      basePrompt ++ "\n\nUser Profile:\n" ++ "" ++
        "\n\nKeep the user\x27s preferences and context in mind when responding." := by
  refine ⟨rfl, ?_, by decide⟩
  rw [sentCompletion_chat "Hi" [] "u1" none envEmptySummary (by decide)]
  rfl

/-- C7 (amended): in the completion payload, the system message is the
fixed base instruction with the profile summary appended verbatim (plus
the instruction to honor it) exactly when a NON-EMPTY summary is
present, and the final user message is the original message text with
the bracketed context block appended exactly when chunks is non-empty,
each chunk rendered as a "- "-prefixed line joined by newlines. -/
theorem prompt_assembly (req : ChatRequest) (env : Env) (uid : String)
    (hu : req.user_id = some uid) (hne : uid ≠ "") :
    ∃ sp um,
      sentCompletion (chat req env) =
        some ⟨"gpt-4.1",
              ⟨"system", sp⟩ ::
                (req.conversation_history.map fun x => ⟨x.role, x.content⟩) ++
                [⟨"user", um⟩],
              (7 : ℚ)/10, 1000, ["query_user_knowledge"]⟩ ∧
      (∀ s, get_user_summary env.summaryResult = some s → s ≠ "" →
        sp = basePrompt ++ "\n\nUser Profile:\n" ++ s ++
          "\n\nKeep the user\x27s preferences and context in mind when responding.") ∧
      (strOptTruthy (get_user_summary env.summaryResult) = false → sp = basePrompt) ∧
      (get_relevant_chunks env.chunksResult = [] → um = req.message) ∧
      (get_relevant_chunks env.chunksResult ≠ [] →
        um = req.message ++ "\n\n[Relevant context from past conversations:\n" ++
          String.intercalate "\n"
            ((get_relevant_chunks env.chunksResult).map fun c => "- " ++ c.text) ++ "]") := by
  rcases req with ⟨m, hist, u, em⟩
  replace hu : u = some uid := hu
  subst hu
  refine ⟨systemPromptOf (get_user_summary env.summaryResult),
          userMessageOf m (get_relevant_chunks env.chunksResult),
          ?_, ?_, ?_, ?_, ?_⟩
  · rw [sentCompletion_chat m hist uid em env hne]
    rfl
  · intro s hs hsne
    simp [systemPromptOf, hs, strOptTruthy, hsne]
  · intro hfalse
    simp [systemPromptOf, hfalse]
  · intro hnil
    simp [userMessageOf, hnil]
  · intro hnonnil
    simp [userMessageOf, List.isEmpty_eq_true, hnonnil]

/-- C7 witness: the amended theorem applied to a request with a
non-empty profile summary and two returned chunks. -/
theorem prompt_assembly_witness :
    ∃ sp um,
      sentCompletion (chat reqHi envAllOk) =
        some ⟨"gpt-4.1",
              ⟨"system", sp⟩ ::
                (reqHi.conversation_history.map fun x => ⟨x.role, x.content⟩) ++
                [⟨"user", um⟩],
              (7 : ℚ)/10, 1000, ["query_user_knowledge"]⟩ ∧
      (∀ s, get_user_summary envAllOk.summaryResult = some s → s ≠ "" →
        sp = basePrompt ++ "\n\nUser Profile:\n" ++ s ++
          "\n\nKeep the user\x27s preferences and context in mind when responding.") ∧
      (strOptTruthy (get_user_summary envAllOk.summaryResult) = false → sp = basePrompt) ∧
      (get_relevant_chunks envAllOk.chunksResult = [] → um = reqHi.message) ∧
      (get_relevant_chunks envAllOk.chunksResult ≠ [] →
        um = reqHi.message ++ "\n\n[Relevant context from past conversations:\n" ++
          String.intercalate "\n"
            ((get_relevant_chunks envAllOk.chunksResult).map fun c => "- " ++ c.text) ++ "]") :=
  prompt_assembly reqHi envAllOk "u1" rfl (by decide)

/-- C8: the message list sent to the completion service is the system
message first, then every history message in original order reduced to
role and content, then the final augmented user message last; the
request carries model "gpt-4.1", temperature 0.7, max_tokens 1000 (and
the unused query tool). -/
theorem completion_payload_shape (req : ChatRequest) (env : Env) (uid : String)
    (hu : req.user_id = some uid) (hne : uid ≠ "") :
    ∃ sp um,
      sentCompletion (chat req env) =
        some ⟨"gpt-4.1",
              ⟨"system", sp⟩ ::
                (req.conversation_history.map fun x => ⟨x.role, x.content⟩) ++
                [⟨"user", um⟩],
              (7 : ℚ)/10, 1000, ["query_user_knowledge"]⟩ := by
  rcases req with ⟨m, hist, u, em⟩
  replace hu : u = some uid := hu
  subst hu
  refine ⟨systemPromptOf (get_user_summary env.summaryResult),
          userMessageOf m (get_relevant_chunks env.chunksResult), ?_⟩
  rw [sentCompletion_chat m hist uid em env hne]
  rfl

/-- C8 witness: the theorem applied to a concrete request (the
completion payload is assembled and issued even though the completion
call itself then fails in this environment). -/
theorem completion_payload_shape_witness :
    ∃ sp um,
      sentCompletion (chat reqHi envCompletionFail) =
        some ⟨"gpt-4.1",
              ⟨"system", sp⟩ ::
                (reqHi.conversation_history.map fun x => ⟨x.role, x.content⟩) ++
                [⟨"user", um⟩],
              (7 : ℚ)/10, 1000, ["query_user_knowledge"]⟩ :=
  completion_payload_shape reqHi envCompletionFail "u1" rfl (by decide)
